import Mathlib

/-!
Shallow embedding of the `poc_agent_langfuse` repository (files
`tools.py` and `poc_agent_langfuse.py`) and proofs about the claims of
its specification.

Modelling conventions:
* Python dictionaries that flow through the program (tool results, the
  agent result, keyword-argument bags) are association lists
  `List (String × Val)` whose key order mirrors the dict literals in the
  source.
* Python exceptions are `Except String`: a raised exception is
  `.error msg` where `msg` is `str(e)`.
* The external LLM endpoint is modelled by the sequence of its replies:
  a function from the 0-based model-call index to `Except String ModelReply`
  (`.error` models a request that raises).  The conversation that the
  source passes to `call_llm` is a deterministic function of the earlier
  replies, so quantifying over reply sequences quantifies over all runs.
* `random.choice` is modelled by an externally supplied natural number
  `pick`, indexed modulo the list length; the current wall-clock strings,
  the Langfuse trace url / trace id and the generated uuid prefix are
  likewise external inputs, bundled in the `ExtEnv` structure.
* Python floats are modelled as exact rationals.  No theorem below
  asserts the numeric value of a float-valued result (the program
  computes IEEE doubles); rationals only feed zero-tests of literally
  written divisors, where the two semantics agree.
* `str.lower` is modelled by `pyLower` below, character-wise ASCII
  lowering (faithful on ASCII, which covers the category keys of
  `tools.py`).
-/

/-- A Python value as it appears in the dictionaries of this program. -/
inductive Val where
  | null : Val
  | bool : Bool → Val
  | int : Int → Val
  | float : Rat → Val
  | str : String → Val
deriving Repr, DecidableEq

/-- A Python dict with string keys, in insertion order. -/
abbrev Dict := List (String × Val)

/-- Key lookup in an association list (Python `d[k]` / `k in d`). -/
def lookupKey {α : Type} : List (String × α) → String → Option α
  | [], _ => none
  | (k, v) :: rest, key => if k = key then some v else lookupKey rest key

/-- `lookupKey` specialised to dicts. -/
def getVal (d : Dict) (k : String) : Option Val := lookupKey d k

/-- Whether a key is present in a dict (Python `k in d`). -/
def hasKey (d : Dict) (k : String) : Bool := (getVal d k).isSome

/-! ### The expression language behind `calculate` (tools.py lines 12-36)

`calculate` feeds its string argument to Python `eval` with an empty
`__builtins__` table.  Full `eval` reaches far more than any claim
needs, so the model embeds only a sub-fragment: integer and point-float
literals, string literals, unary sign and the binary operators `+`,
`-`, `*`, `/` with parentheses.  The embedding is faithful on its
accept side — every string the reader accepts is read and evaluated as
Python reads and evaluates it (integers exactly; float divisors only
through their zero-test) — but its reject side is an over-approximation:
Python-valid forms outside the fragment (`**`, `%`, `//`, comparisons,
exponent floats such as `1e3`, names, containers, ...) are also mapped
to `none`.  Accordingly, no theorem below concludes anything from the
reader rejecting a string. -/

/-- A run-time value of the evaluated expression. -/
inductive PyVal where
  | int : Int → PyVal
  | float : Rat → PyVal
  | str : String → PyVal
deriving Repr, DecidableEq

/-- Tokens of the expression fragment accepted by `eval`. -/
inductive Tok where
  | int : Nat → Tok
  | flt : Rat → Tok
  | str : String → Tok
  | plus | minus | times | divide | lparen | rparen : Tok
deriving Repr, DecidableEq

/-- The double-quote character. -/
def quoteD : Char := Char.ofNat 34

/-- The single-quote character. -/
def quoteS : Char := Char.ofNat 39

/-- Numeric value of a digit string. -/
def digitsToNat (ds : List Char) : Nat :=
  ds.foldl (fun n c => 10 * n + (c.toNat - 48)) 0

/-- Value of an `intpart.fracpart` float literal, as an exact rational. -/
def mkFloat (ipart : List Char) (fpart : List Char) : Rat :=
  (digitsToNat ipart : Rat) + (digitsToNat fpart : Rat) / ((10 : Rat) ^ fpart.length)

/-- Fuel-indexed lexer for the modelled sub-fragment; the fuel only
needs to exceed the input length because every step consumes at least
one character.  Integer literals reject leading zeros exactly as the
Python tokenizer does (`012` is a `SyntaxError`, `00` is 0); characters
outside the fragment map the input to `none`. -/
def lexGo : Nat → List Char → Option (List Tok)
  | _, [] => some []
  | 0, _ :: _ => none
  | fuel + 1, c :: cs =>
    if c = ' ' ∨ c = Char.ofNat 9 then lexGo fuel cs
    else if c = '+' then (lexGo fuel cs).map (Tok.plus :: ·)
    else if c = '-' then (lexGo fuel cs).map (Tok.minus :: ·)
    else if c = '*' then (lexGo fuel cs).map (Tok.times :: ·)
    else if c = '/' then (lexGo fuel cs).map (Tok.divide :: ·)
    else if c = '(' then (lexGo fuel cs).map (Tok.lparen :: ·)
    else if c = ')' then (lexGo fuel cs).map (Tok.rparen :: ·)
    else if c.isDigit then
      let ds := (c :: cs).takeWhile Char.isDigit
      match (c :: cs).dropWhile Char.isDigit with
      | Char.mk 46 p :: rest2 =>
        let _ := p
        let fs := rest2.takeWhile Char.isDigit
        (lexGo fuel (rest2.dropWhile Char.isDigit)).map (Tok.flt (mkFloat ds fs) :: ·)
      | rest =>
        if c = '0' ∧ ¬ ds.all (fun d => d = '0') then none
        else (lexGo fuel rest).map (Tok.int (digitsToNat ds) :: ·)
    else if c = quoteD ∨ c = quoteS then
      match cs.dropWhile (· ≠ c) with
      | _ :: rest2 => (lexGo fuel rest2).map (Tok.str (String.mk (cs.takeWhile (· ≠ c))) :: ·)
      | [] => none
    else none

/-- Abstract syntax of the expression fragment. -/
inductive PExpr where
  | num : Nat → PExpr
  | fnum : Rat → PExpr
  | strLit : String → PExpr
  | neg : PExpr → PExpr
  | pos : PExpr → PExpr
  | add : PExpr → PExpr → PExpr
  | sub : PExpr → PExpr → PExpr
  | mul : PExpr → PExpr → PExpr
  | div : PExpr → PExpr → PExpr
deriving Repr, DecidableEq

mutual

/-- Atoms: literals, unary sign, parenthesised expression. -/
def pAtom : Nat → List Tok → Option (PExpr × List Tok)
  | 0, _ => none
  | fuel + 1, toks =>
    match toks with
    | Tok.int n :: rest => some (PExpr.num n, rest)
    | Tok.flt q :: rest => some (PExpr.fnum q, rest)
    | Tok.str s :: rest => some (PExpr.strLit s, rest)
    | Tok.minus :: rest => (pAtom fuel rest).map (fun p => (PExpr.neg p.1, p.2))
    | Tok.plus :: rest => (pAtom fuel rest).map (fun p => (PExpr.pos p.1, p.2))
    | Tok.lparen :: rest =>
      match pExprT fuel rest with
      | some (e, Tok.rparen :: rest2) => some (e, rest2)
      | _ => none
    | _ => none

/-- Left-associated chain of `*` and `/`. -/
def pMulChain : Nat → PExpr → List Tok → Option (PExpr × List Tok)
  | 0, _, _ => none
  | fuel + 1, acc, Tok.times :: rest =>
    match pAtom fuel rest with
    | some (b, rest2) => pMulChain fuel (PExpr.mul acc b) rest2
    | none => none
  | fuel + 1, acc, Tok.divide :: rest =>
    match pAtom fuel rest with
    | some (b, rest2) => pMulChain fuel (PExpr.div acc b) rest2
    | none => none
  | _ + 1, acc, rest => some (acc, rest)

/-- A term: atom followed by a multiplicative chain. -/
def pTerm : Nat → List Tok → Option (PExpr × List Tok)
  | 0, _ => none
  | fuel + 1, toks =>
    match pAtom fuel toks with
    | some (a, rest) => pMulChain fuel a rest
    | none => none

/-- Left-associated chain of `+` and `-`. -/
def pAddChain : Nat → PExpr → List Tok → Option (PExpr × List Tok)
  | 0, _, _ => none
  | fuel + 1, acc, Tok.plus :: rest =>
    match pTerm fuel rest with
    | some (b, rest2) => pAddChain fuel (PExpr.add acc b) rest2
    | none => none
  | fuel + 1, acc, Tok.minus :: rest =>
    match pTerm fuel rest with
    | some (b, rest2) => pAddChain fuel (PExpr.sub acc b) rest2
    | none => none
  | _ + 1, acc, rest => some (acc, rest)

/-- A full expression: term followed by an additive chain. -/
def pExprT : Nat → List Tok → Option (PExpr × List Tok)
  | 0, _ => none
  | fuel + 1, toks =>
    match pTerm fuel toks with
    | some (a, rest) => pAddChain fuel a rest
    | none => none

end

/-- Reading an input string into an expression of the modelled
sub-fragment.  `none` conflates strings on which `eval` raises a
`SyntaxError` with valid Python that the model simply does not cover,
so it carries no information about the program; `some e` means Python
parses the string exactly as `e`. -/
def readExpr (s : String) : Option PExpr :=
  match lexGo (s.length + 1) s.data with
  | none => none
  | some toks =>
    match pExprT (4 * toks.length + 8) toks with
    | some (e, []) => some e
    | _ => none

/-- String repetition (Python `s * n`). -/
def repStr : Nat → String → String
  | 0, _ => ""
  | n + 1, s => s ++ repStr n s

/-- Python `+` on the values of the fragment.  The TypeError texts are
abbreviated; no claim inspects them. -/
def pyAdd : PyVal → PyVal → Except String PyVal
  | PyVal.int a, PyVal.int b => .ok (PyVal.int (a + b))
  | PyVal.int a, PyVal.float b => .ok (PyVal.float ((a : Rat) + b))
  | PyVal.float a, PyVal.int b => .ok (PyVal.float (a + (b : Rat)))
  | PyVal.float a, PyVal.float b => .ok (PyVal.float (a + b))
  | PyVal.str a, PyVal.str b => .ok (PyVal.str (a ++ b))
  | _, _ => .error "unsupported operand type(s) for +"

/-- Python `-` on the values of the fragment. -/
def pySub : PyVal → PyVal → Except String PyVal
  | PyVal.int a, PyVal.int b => .ok (PyVal.int (a - b))
  | PyVal.int a, PyVal.float b => .ok (PyVal.float ((a : Rat) - b))
  | PyVal.float a, PyVal.int b => .ok (PyVal.float (a - (b : Rat)))
  | PyVal.float a, PyVal.float b => .ok (PyVal.float (a - b))
  | _, _ => .error "unsupported operand type(s) for -"

/-- Python `*` on the values of the fragment. -/
def pyMul : PyVal → PyVal → Except String PyVal
  | PyVal.int a, PyVal.int b => .ok (PyVal.int (a * b))
  | PyVal.int a, PyVal.float b => .ok (PyVal.float ((a : Rat) * b))
  | PyVal.float a, PyVal.int b => .ok (PyVal.float (a * (b : Rat)))
  | PyVal.float a, PyVal.float b => .ok (PyVal.float (a * b))
  | PyVal.int a, PyVal.str s => .ok (PyVal.str (repStr a.toNat s))
  | PyVal.str s, PyVal.int a => .ok (PyVal.str (repStr a.toNat s))
  | _, _ => .error "unsupported operand type(s) for *"

/-- Python `/` on the values of the fragment: true division, float
result, `ZeroDivisionError` on a zero divisor. -/
def pyDiv : PyVal → PyVal → Except String PyVal
  | PyVal.int a, PyVal.int b =>
    if b = 0 then .error "division by zero"
    else .ok (PyVal.float ((a : Rat) / (b : Rat)))
  | PyVal.int a, PyVal.float b =>
    if b = 0 then .error "float division by zero"
    else .ok (PyVal.float ((a : Rat) / b))
  | PyVal.float a, PyVal.int b =>
    if b = 0 then .error "float division by zero"
    else .ok (PyVal.float (a / (b : Rat)))
  | PyVal.float a, PyVal.float b =>
    if b = 0 then .error "float division by zero"
    else .ok (PyVal.float (a / b))
  | _, _ => .error "unsupported operand type(s) for /"

/-- Python unary `-`. -/
def pyNeg : PyVal → Except String PyVal
  | PyVal.int a => .ok (PyVal.int (-a))
  | PyVal.float a => .ok (PyVal.float (-a))
  | PyVal.str _ => .error "bad operand type for unary -"

/-- Python unary `+`. -/
def pyPos : PyVal → Except String PyVal
  | PyVal.int a => .ok (PyVal.int a)
  | PyVal.float a => .ok (PyVal.float a)
  | PyVal.str _ => .error "bad operand type for unary +"

/-- Evaluation of the fragment, with Python exception texts as errors. -/
def evalE : PExpr → Except String PyVal
  | PExpr.num n => .ok (PyVal.int n)
  | PExpr.fnum q => .ok (PyVal.float q)
  | PExpr.strLit s => .ok (PyVal.str s)
  | PExpr.neg e => evalE e >>= pyNeg
  | PExpr.pos e => evalE e >>= pyPos
  | PExpr.add a b => do pyAdd (← evalE a) (← evalE b)
  | PExpr.sub a b => do pySub (← evalE a) (← evalE b)
  | PExpr.mul a b => do pyMul (← evalE a) (← evalE b)
  | PExpr.div a b => do pyDiv (← evalE a) (← evalE b)

/-- Injection of run-time values into dict values. -/
def pyToVal : PyVal → Val
  | PyVal.int n => Val.int n
  | PyVal.float q => Val.float q
  | PyVal.str s => Val.str s

/-- Whether a dict value is numeric. -/
def isNumericV : Val → Bool
  | Val.int _ => true
  | Val.float _ => true
  | _ => false

/-- Whether an expression is pure integer arithmetic: integer literals,
unary sign, `+`, `-`, `*`.  On this fragment Python computes with exact
arbitrary-precision integers, so the model agrees with the program
value for value. -/
def intArith : PExpr → Bool
  | PExpr.num _ => true
  | PExpr.neg e => intArith e
  | PExpr.pos e => intArith e
  | PExpr.add a b => intArith a && intArith b
  | PExpr.sub a b => intArith a && intArith b
  | PExpr.mul a b => intArith a && intArith b
  | _ => false

/-- `tools.calculate` (tools.py lines 12-36): evaluate the expression
under empty builtins; any exception is caught and becomes a failure
dict carrying the exception text.  Because the reader under-approximates
`eval`, the failure branch of this model also fires on valid Python
outside the fragment; theorems therefore only evaluate `calculate` at
inputs inside the fragment or assert branch-independent shape facts. -/
def calculate (expression : String) : Dict :=
  match readExpr expression with
  | none =>
    [("success", Val.bool false), ("expression", Val.str expression),
     ("error", Val.str "invalid syntax")]
  | some e =>
    match evalE e with
    | .ok v =>
      [("success", Val.bool true), ("expression", Val.str expression),
       ("result", pyToVal v)]
    | .error msg =>
      [("success", Val.bool false), ("expression", Val.str expression),
       ("error", Val.str msg)]

/-! ### The remaining tools (tools.py lines 40-110) and the registry -/

/-- External inputs of a run: the `random.choice` draw, the wall-clock
renderings used by `get_current_time`, and the Langfuse trace url,
trace id and generated uuid prefix. -/
structure ExtEnv where
  pick : Nat
  nowIso : String
  nowDate : String
  nowTime : String
  nowFmt : String
  traceUrl : String
  traceId : String
  uuid8 : String

/-- The `general` fact list (tools.py lines 73-78). -/
def generalFacts : List String :=
  ["Honey never spoils. Archaeologists have found 3000-year-old honey in Egyptian tombs that was still edible.",
   "A group of flamingos is called a \x27flamboyance\x27.",
   "Bananas are berries, but strawberries aren\x27t.",
   "The shortest war in history lasted 38 minutes between Britain and Zanzibar in 1896."]

/-- The `science` fact list (tools.py lines 79-84). -/
def scienceFacts : List String :=
  ["Water can boil and freeze at the same time in a phenomenon called the triple point.",
   "A single bolt of lightning contains enough energy to toast 100,000 slices of bread.",
   "Your body contains about 37.2 trillion cells.",
   "Sound travels 4.3 times faster in water than in air."]

/-- The `history` fact list (tools.py lines 85-90). -/
def historyFacts : List String :=
  ["Cleopatra lived closer in time to the moon landing than to the construction of the Great Pyramid.",
   "Oxford University is older than the Aztec Empire.",
   "The Great Wall of China is not visible from space with the naked eye.",
   "Nintendo was founded in 1889 as a playing card company."]

/-- The `tech` fact list (tools.py lines 91-96). -/
def techFacts : List String :=
  ["The first computer mouse was made of wood in 1964.",
   "The first 1GB hard drive weighed over 500 pounds and cost $40,000 in 1980.",
   "Email existed before the World Wide Web.",
   "The first webcam was created to monitor a coffee pot at Cambridge University."]

/-- The fact table of `get_random_fact` (tools.py lines 72-97). -/
def facts : List (String × List String) :=
  [("general", generalFacts), ("science", scienceFacts),
   ("history", historyFacts), ("tech", techFacts)]

/-- Python `str.lower`, character-wise (ASCII). -/
def pyLower (s : String) : String := String.mk (s.data.map Char.toLower)

/-- `random.choice` on a list, driven by the external draw `pick`. -/
def choiceAt (l : List String) (pick : Nat) : String :=
  l.getD (pick % l.length) ""

/-- `tools.get_random_fact` (tools.py lines 62-110): lower-case the
category, fall back to `general` when it is not a key of the table, and
pick a random member of the selected list. -/
def get_random_fact (category : String) (pick : Nat) : Dict :=
  let category1 := pyLower category
  let category2 := if (lookupKey facts category1).isSome then category1 else "general"
  let fact := choiceAt ((lookupKey facts category2).getD []) pick
  [("success", Val.bool true), ("category", Val.str category2), ("fact", Val.str fact)]

/-- `tools.get_current_time` (tools.py lines 40-58): echoes the timezone
argument and renders the current wall clock, taken here from `ExtEnv`. -/
def get_current_time (env : ExtEnv) (timezone : Val) : Dict :=
  [("success", Val.bool true), ("timezone", timezone),
   ("datetime", Val.str env.nowIso), ("date", Val.str env.nowDate),
   ("time", Val.str env.nowTime), ("formatted", Val.str env.nowFmt)]

/-- Keyword-argument entry point of `calculate`, as called through
`tool_function(**tool_arguments)`.  A missing required argument raises a
`TypeError` (modelled as `.error`); a non-string argument reaches `eval`,
whose `TypeError` is caught inside `calculate` itself.  Exception texts
are abbreviated. -/
def calculate_kw (args : Dict) : Except String Dict :=
  match lookupKey args "expression" with
  | some (Val.str s) => .ok (calculate s)
  | some v =>
    .ok [("success", Val.bool false), ("expression", v),
         ("error", Val.str "eval() arg 1 must be a string, bytes or code object")]
  | none => .error "calculate() missing 1 required positional argument: expression"

/-- Keyword-argument entry point of `get_current_time`; the `timezone`
parameter defaults to `UTC`. -/
def get_current_time_kw (env : ExtEnv) (args : Dict) : Except String Dict :=
  .ok (get_current_time env ((lookupKey args "timezone").getD (Val.str "UTC")))

/-- Keyword-argument entry point of `get_random_fact`; the `category`
parameter defaults to `general`, and `category.lower()` on a non-string
raises an `AttributeError` (modelled as `.error`). -/
def get_random_fact_kw (env : ExtEnv) (args : Dict) : Except String Dict :=
  match lookupKey args "category" with
  | none => .ok (get_random_fact "general" env.pick)
  | some (Val.str c) => .ok (get_random_fact c env.pick)
  | some _ => .error "object has no attribute lower"

/-- `tools.TOOL_FUNCTIONS` (tools.py lines 173-177): the name-to-function
dispatch table. -/
def TOOL_FUNCTIONS (env : ExtEnv) : List (String × (Dict → Except String Dict)) :=
  [("calculate", calculate_kw),
   ("get_current_time", get_current_time_kw env),
   ("get_random_fact", get_random_fact_kw env)]

/-! ### The agent module (poc_agent_langfuse.py) -/

/-- `execute_tool` (poc_agent_langfuse.py lines 57-84), with the
module-level registry passed explicitly: unknown names and exceptions
raised by the tool function both become failure dicts; nothing
propagates. -/
def execute_tool (registry : List (String × (Dict → Except String Dict)))
    (tool_name : String) (tool_arguments : Dict) : Dict :=
  match lookupKey registry tool_name with
  | none => [("success", Val.bool false), ("error", Val.str ("Unknown tool: " ++ tool_name))]
  | some tool_function =>
    match tool_function tool_arguments with
    | .ok result => result
    | .error e => [("success", Val.bool false), ("error", Val.str ("Tool execution failed: " ++ e))]

/-- A tool call requested by the model.  The `arguments` field is the
already-decoded key-value bag (the source decodes the JSON text with
`json.loads` before dispatch). -/
structure ToolCall where
  id : String
  name : String
  arguments : Dict
deriving Repr, DecidableEq

/-- A message of the conversation, one constructor per role. -/
inductive Message where
  | system : String → Message
  | user : String → Message
  | assistant : Option String → Option (List ToolCall) → Message
  | tool : String → String → String → Message
deriving Repr, DecidableEq

/-- The role tag of a message. -/
def roleOf : Message → String
  | Message.system _ => "system"
  | Message.user _ => "user"
  | Message.assistant _ _ => "assistant"
  | Message.tool _ _ _ => "tool"

/-- The `tool_call_id` of a tool message (empty for other roles). -/
def callIdOf : Message → String
  | Message.tool cid _ _ => cid
  | _ => ""

/-- One reply of the model endpoint: `response.choices[0]`. -/
structure ModelReply where
  content : Option String
  tool_calls : Option (List ToolCall)
  finish_reason : String
deriving Repr, DecidableEq

/-- Python truthiness of the `tool_calls` attribute (`None` and the
empty list are falsy). -/
def truthyCalls : Option (List ToolCall) → Bool
  | none => false
  | some l => !l.isEmpty

/-- Rendering of a dict value for `json.dumps`. -/
def dumpVal : Val → String
  | Val.null => "null"
  | Val.bool true => "true"
  | Val.bool false => "false"
  | Val.int n => toString n
  | Val.float q => toString q
  | Val.str s => String.mk (quoteD :: s.data) ++ String.mk [quoteD]

/-- Rendering of a dict for `json.dumps` (tool results are flat). -/
def dumpDict (d : Dict) : String :=
  "\x7b" ++ String.intercalate ", "
    (d.map (fun kv => dumpVal (Val.str kv.1) ++ ": " ++ dumpVal kv.2)) ++ "\x7d"

/-- The tool-role messages appended for one batch of requested calls
(poc_agent_langfuse.py lines 152-167), in request order, each tagged
with the id of its call. -/
def toolMsgs (env : ExtEnv) (tcs : List ToolCall) : List Message :=
  tcs.map (fun tc =>
    Message.tool tc.id tc.name (dumpDict (execute_tool (TOOL_FUNCTIONS env) tc.name tc.arguments)))

/-- The value of the `answer` field: `None` content becomes `null`. -/
def optToVal : Option String → Val
  | none => Val.null
  | some s => Val.str s

/-- The success result dict (poc_agent_langfuse.py lines 180-187). -/
def successDict (env : ExtEnv) (sid : String) (content : Option String) (iterations : Nat) : Dict :=
  [("success", Val.bool true), ("answer", optToVal content),
   ("iterations", Val.int iterations), ("trace_url", Val.str env.traceUrl),
   ("trace_id", Val.str env.traceId), ("session_id", Val.str sid)]

/-- The ceiling-reached failure dict (poc_agent_langfuse.py lines 190-197). -/
def failureDict (env : ExtEnv) (sid : String) (iterations : Nat) : Dict :=
  [("success", Val.bool false),
   ("error", Val.str "Maximum iterations reached without conclusive answer"),
   ("iterations", Val.int iterations), ("trace_url", Val.str env.traceUrl),
   ("trace_id", Val.str env.traceId), ("session_id", Val.str sid)]

/-- The `while` loop of `run_agent` (poc_agent_langfuse.py lines
133-197).  `fuel` is `max_iterations - iteration`, so the loop guard
`iteration < max_iterations` is `fuel > 0`; `iteration` is also the
0-based index of the next model call.  A model-call exception is not
caught and surfaces as `.error`. -/
def agentLoop (llm : Nat → Except String ModelReply) (env : ExtEnv) (sid : String) :
    Nat → Nat → List Message → Except String (Dict × List Message)
  | 0, iteration, msgs => .ok (failureDict env sid iteration, msgs)
  | fuel + 1, iteration, msgs =>
    match llm iteration with
    | .error e => .error e
    | .ok reply =>
      let msgs1 := msgs ++ [Message.assistant reply.content reply.tool_calls]
      if reply.finish_reason = "tool_calls" ∧ truthyCalls reply.tool_calls = true then
        agentLoop llm env sid fuel (iteration + 1)
          (msgs1 ++ toolMsgs env (reply.tool_calls.getD []))
      else if reply.finish_reason = "stop" then
        .ok (successDict env sid reply.content (iteration + 1), msgs1)
      else
        agentLoop llm env sid fuel (iteration + 1) msgs1

/-- The system prompt seeded into the conversation (lines 121-123). -/
def sysPrompt : String :=
  "You are a helpful AI assistant with access to tools. \nUse the available tools when needed to answer user questions accurately.\nWhen you have enough information to answer the user\x27s question, always be accurate. If you don\x27t know the answer, say so."

/-- `run_agent` (poc_agent_langfuse.py lines 88-197), returning the
result dict together with the final conversation; a `None` session id is
replaced by the generated uuid prefix.  The `user_id` parameter only
feeds the tracing side channel. -/
def run_agent_full (llm : Nat → Except String ModelReply) (env : ExtEnv)
    (user_query : String) (user_id : String) (session_id : Option String)
    (max_iterations : Nat) : Except String (Dict × List Message) :=
  let _ := user_id
  let sid := session_id.getD env.uuid8
  agentLoop llm env sid max_iterations 0 [Message.system sysPrompt, Message.user user_query]

/-- `run_agent` as seen by the caller: just the result dict. -/
def run_agent (llm : Nat → Except String ModelReply) (env : ExtEnv)
    (user_query : String) (user_id : String) (session_id : Option String)
    (max_iterations : Nat) : Except String Dict :=
  (run_agent_full llm env user_query user_id session_id max_iterations).map Prod.fst

/-- The dict of an `.ok` outcome (used only to state closed facts). -/
def okDict : Except String Dict → Dict
  | .ok d => d
  | .error _ => []

/-- The final conversation of a run that returned normally. -/
def msgsOf : Except String (Dict × List Message) → List Message
  | .ok p => p.2
  | .error _ => []

/-! ### Predicates used by the statements -/

/-- Default message for positional access to conversations. -/
def mDefault : Message := Message.system ""

/-- The message is an assistant message whose requested calls include
the given call id. -/
def assistantHasCallId (m : Message) (cid : String) : Prop :=
  match m with
  | Message.assistant _ (some tcs) => cid ∈ tcs.map ToolCall.id
  | _ => False

/-- Spec §3 invariant: every tool message references a `tool_call_id`
emitted by an earlier assistant message of the same conversation. -/
def toolRefOk (msgs : List Message) : Prop :=
  ∀ j cid nm ct, msgs.getD j mDefault = Message.tool cid nm ct →
    ∃ i, i < j ∧ assistantHasCallId (msgs.getD i mDefault) cid

/-- Key-set shape of an agent result dict: a success result has an
`answer` key and no `error` key, a failure result the reverse. -/
def dictShape (d : Dict) : Prop :=
  (getVal d "success" = some (Val.bool true) →
    hasKey d "answer" = true ∧ hasKey d "error" = false) ∧
  (getVal d "success" = some (Val.bool false) →
    hasKey d "error" = true ∧ hasKey d "answer" = false)

/-- `dictShape` lifted to the outcome of `run_agent` (a propagated
model-call exception returns no dict at all). -/
def resShape : Except String Dict → Prop
  | .error _ => True
  | .ok d => dictShape d

/-! ### Concrete data for witnesses and counterexamples -/

/-- A concrete external environment. -/
def env0 : ExtEnv :=
  ⟨3, "2026-10-12T00:00:00", "2026-10-12", "00:00:00",
   "October 12, 2026 at 12:00:00 AM",
   "https://langfuse.example/trace/t1", "t1", "abcd1234"⟩

/-- A reply that requests no tools but is not terminal (e.g. the token
limit was hit, `finish_reason == "length"`). -/
def replyLen : ModelReply := ⟨some "hello", none, "length"⟩

/-- An endpoint that always answers with `replyLen`. -/
def llmLen : Nat → Except String ModelReply := fun _ => .ok replyLen

/-- A terminal reply. -/
def replyStop : ModelReply := ⟨some "42", none, "stop"⟩

/-- An endpoint that answers terminally at once. -/
def llmStop : Nat → Except String ModelReply := fun _ => .ok replyStop

/-- A reply requesting a single `calculate` call. -/
def replyTools : ModelReply :=
  ⟨none, some [⟨"call_1", "calculate", [("expression", Val.str "1+1")]⟩], "tool_calls"⟩

/-- An endpoint that requests tools on every round. -/
def llmTools : Nat → Except String ModelReply := fun _ => .ok replyTools

/-- Two distinct tool calls requested in one assistant turn. -/
def tcPair : List ToolCall :=
  [⟨"call_1", "calculate", [("expression", Val.str "25 * 4")]⟩,
   ⟨"call_2", "get_random_fact", [("category", Val.str "science")]⟩]

/-- An endpoint that requests `tcPair` and then answers terminally. -/
def llmBatch : Nat → Except String ModelReply := fun i =>
  if i = 0 then .ok ⟨none, some tcPair, "tool_calls"⟩
  else .ok ⟨some "done", none, "stop"⟩

/-- An endpoint whose first round requests a tool name that is not in
the registry, and which then answers terminally. -/
def llmUnknown : Nat → Except String ModelReply := fun i =>
  if i = 0 then .ok ⟨none, some [⟨"call_9", "nonexistent_tool", []⟩], "tool_calls"⟩
  else .ok ⟨some "recovered", none, "stop"⟩

/-- An endpoint whose request raises (network/API error). -/
def llmErr : Nat → Except String ModelReply := fun _ => .error "APIConnectionError"

/-- An endpoint whose first round triggers a division-by-zero tool
failure and which then answers terminally. -/
def llmCalc : Nat → Except String ModelReply := fun i =>
  if i = 0 then .ok ⟨none, some [⟨"call_3", "calculate", [("expression", Val.str "1/0")]⟩], "tool_calls"⟩
  else .ok ⟨some "ok", none, "stop"⟩

/-- A registry of one tool that always raises, for exercising the
exception-absorption path of `execute_tool`. -/
def registryBoom : List (String × (Dict → Except String Dict)) :=
  [("boom_tool", fun _ => .error "boom")]

/-- The two return shapes of `calculate` (tools.py lines 26-36): a
success dict with a `result` key and no `error` key, or a failure dict
with an `error` key and no `result` key; both carry `success` and
`expression` and nothing is ever raised. -/
def calcShape (d : Dict) : Prop :=
  (getVal d "success" = some (Val.bool true) ∧
    hasKey d "result" = true ∧ hasKey d "error" = false) ∨
  (getVal d "success" = some (Val.bool false) ∧
    hasKey d "error" = true ∧ hasKey d "result" = false)

theorem agentLoop_skip (llm : Nat → Except String ModelReply) (env : ExtEnv) (sid : String) :
    ∀ (k fuel iter : Nat) (msgs : List Message), k ≤ fuel →
      (∀ i, i < k → ∃ r, llm (iter + i) = .ok r ∧ r.finish_reason ≠ "stop") →
      ∃ msgs2, agentLoop llm env sid fuel iter msgs =
        agentLoop llm env sid (fuel - k) (iter + k) msgs2 := by
  intro k
  induction k with
  | zero => intro fuel iter msgs _ _; exact ⟨msgs, by simp⟩
  | succ k ih =>
    intro fuel iter msgs hle hcont
    obtain ⟨r, hr, hns⟩ := hcont 0 (Nat.succ_pos k)
    rw [Nat.add_zero] at hr
    cases fuel with
    | zero => omega
    | succ f =>
      have hstep : ∃ m1, agentLoop llm env sid (f + 1) iter msgs =
          agentLoop llm env sid f (iter + 1) m1 := by
        simp only [agentLoop, hr]
        by_cases hc : r.finish_reason = "tool_calls" ∧ truthyCalls r.tool_calls = true
        · rw [if_pos hc]; exact ⟨_, rfl⟩
        · rw [if_neg hc, if_neg hns]; exact ⟨_, rfl⟩
      obtain ⟨m1, hm1⟩ := hstep
      have hcont2 : ∀ i, i < k → ∃ r2, llm (iter + 1 + i) = .ok r2 ∧ r2.finish_reason ≠ "stop" := by
        intro i hi
        have h2 := hcont (i + 1) (by omega)
        have heq : iter + (i + 1) = iter + 1 + i := by omega
        rwa [heq] at h2
      obtain ⟨m2, hm2⟩ := ih f (iter + 1) m1 (by omega) hcont2
      refine ⟨m2, ?_⟩
      rw [hm1, hm2]
      have h1 : f + 1 - (k + 1) = f - k := by omega
      have h2 : iter + 1 + k = iter + (k + 1) := by omega
      rw [h1, h2]

/-- Claim C1, counterexample: a reply that requests no tool calls but whose
finish reason is `length` is not treated as final.  With a ceiling of 1 the
run returns a failure result with no `answer` key instead of the success
result the claim promises. -/
theorem claim1_counterexample :
    replyLen.tool_calls = none ∧
    getVal (okDict (run_agent llmLen env0 "q" "u" (some "s") 1)) "success" = some (Val.bool false) ∧
    getVal (okDict (run_agent llmLen env0 "q" "u" (some "s") 1)) "answer" = none ∧
    getVal (okDict (run_agent llmLen env0 "q" "u" (some "s") 1)) "iterations" = some (Val.int 1) := by
  decide

/-- Claim C1, amended: in every iteration whose reply has finish reason
`stop`, the loop treats the reply as final and returns a success result whose
answer is the reply content and whose iterations field equals the number of
model calls made so far; in particular a first reply with finish reason
`stop` yields success with iterations 1 and no tool message appended.  (A
reply with no tool calls but a finish reason other than `stop` merely
advances the loop.) -/
theorem claim1_amended (llm : Nat → Except String ModelReply) (env : ExtEnv)
    (q uid : String) (sid : Option String) (mi k : Nat) (r : ModelReply)
    (hk : k < mi)
    (hpre : ∀ i, i < k → ∃ ri, llm i = .ok ri ∧ ri.finish_reason ≠ "stop")
    (hstop : llm k = .ok r) (hr : r.finish_reason = "stop") :
    (∃ msgs, run_agent_full llm env q uid sid mi =
      .ok (successDict env (sid.getD env.uuid8) r.content (k + 1), msgs)) ∧
    (k = 0 → run_agent_full llm env q uid sid mi =
      .ok (successDict env (sid.getD env.uuid8) r.content 1,
           [Message.system sysPrompt, Message.user q,
            Message.assistant r.content r.tool_calls])) := by
  have hrun : run_agent_full llm env q uid sid mi =
      agentLoop llm env (sid.getD env.uuid8) mi 0 [Message.system sysPrompt, Message.user q] := rfl
  obtain ⟨f, hf⟩ : ∃ f, mi - k = f + 1 := ⟨mi - k - 1, by omega⟩
  constructor
  · obtain ⟨m2, hm2⟩ := agentLoop_skip llm env (sid.getD env.uuid8) k mi 0
      [Message.system sysPrompt, Message.user q] (le_of_lt hk) (by simpa using hpre)
    rw [Nat.zero_add] at hm2
    refine ⟨m2 ++ [Message.assistant r.content r.tool_calls], ?_⟩
    rw [hrun, hm2, hf]
    simp [agentLoop, hstop, hr]
  · intro h0
    subst h0
    cases mi with
    | zero => omega
    | succ g =>
      rw [hrun]
      simp [agentLoop, hstop, hr]

/-- Claim C2: for every positive iteration ceiling, if every model reply up
to the ceiling requests tool calls (finish reason `tool_calls` with a
non-empty list), `run_agent` returns — does not raise — a failure result
whose iterations field equals the ceiling; the ceiling counts model-call
rounds, not individual tool invocations, since each round here may carry any
number of calls. -/
theorem claim2 (llm : Nat → Except String ModelReply) (env : ExtEnv)
    (q uid : String) (sid : Option String) (mi : Nat) (_hmi : 0 < mi)
    (hall : ∀ i, i < mi → ∃ r, llm i = .ok r ∧
      r.finish_reason = "tool_calls" ∧ truthyCalls r.tool_calls = true) :
    ∃ msgs, run_agent_full llm env q uid sid mi =
      .ok (failureDict env (sid.getD env.uuid8) mi, msgs) := by
  have hrun : run_agent_full llm env q uid sid mi =
      agentLoop llm env (sid.getD env.uuid8) mi 0 [Message.system sysPrompt, Message.user q] := rfl
  obtain ⟨m2, hm2⟩ := agentLoop_skip llm env (sid.getD env.uuid8) mi mi 0
      [Message.system sysPrompt, Message.user q] le_rfl (by
        intro i hi
        obtain ⟨r, hr, hfin, _⟩ := hall i hi
        refine ⟨r, by simpa using hr, ?_⟩
        rw [hfin]
        decide)
  rw [Nat.zero_add, Nat.sub_self] at hm2
  exact ⟨m2, by rw [hrun, hm2]; rfl⟩

/-- Claim C6: a model-call exception is not caught anywhere in `run_agent`:
if every earlier reply kept the loop going and the model call of some round
raises, the exception propagates unchanged to the caller instead of being
converted to a failure result. -/
theorem claim6 (llm : Nat → Except String ModelReply) (env : ExtEnv)
    (q uid : String) (sid : Option String) (mi k : Nat) (e : String)
    (hpre : ∀ i, i < k → ∃ ri, llm i = .ok ri ∧ ri.finish_reason ≠ "stop")
    (hk : k < mi) (herr : llm k = .error e) :
    run_agent llm env q uid sid mi = .error e := by
  have hrun : run_agent_full llm env q uid sid mi =
      agentLoop llm env (sid.getD env.uuid8) mi 0 [Message.system sysPrompt, Message.user q] := rfl
  obtain ⟨f, hf⟩ : ∃ f, mi - k = f + 1 := ⟨mi - k - 1, by omega⟩
  obtain ⟨m2, hm2⟩ := agentLoop_skip llm env (sid.getD env.uuid8) k mi 0
      [Message.system sysPrompt, Message.user q] (le_of_lt hk) (by simpa using hpre)
  rw [Nat.zero_add] at hm2
  show (run_agent_full llm env q uid sid mi).map Prod.fst = .error e
  rw [hrun, hm2, hf]
  simp [agentLoop, herr, Except.map]

theorem dictShape_success (env : ExtEnv) (sid : String) (c : Option String) (n : Nat) :
    dictShape (successDict env sid c n) := by
  constructor
  · intro _
    exact ⟨rfl, rfl⟩
  · intro h
    simp [successDict, getVal, lookupKey] at h

theorem dictShape_failure (env : ExtEnv) (sid : String) (n : Nat) :
    dictShape (failureDict env sid n) := by
  constructor
  · intro h
    simp [failureDict, getVal, lookupKey] at h
  · intro _
    exact ⟨rfl, rfl⟩

theorem agentLoop_shape (llm : Nat → Except String ModelReply) (env : ExtEnv) (sid : String) :
    ∀ (fuel iter : Nat) (msgs : List Message) (d : Dict) (m2 : List Message),
      agentLoop llm env sid fuel iter msgs = .ok (d, m2) → dictShape d := by
  intro fuel
  induction fuel with
  | zero =>
    intro iter msgs d m2 h
    simp only [agentLoop, Except.ok.injEq, Prod.mk.injEq] at h
    rw [← h.1]
    exact dictShape_failure env sid iter
  | succ f ih =>
    intro iter msgs d m2 h
    cases hllm : llm iter with
    | error e => simp [agentLoop, hllm] at h
    | ok r =>
      simp only [agentLoop, hllm] at h
      by_cases hc : r.finish_reason = "tool_calls" ∧ truthyCalls r.tool_calls = true
      · rw [if_pos hc] at h
        exact ih _ _ _ _ h
      · rw [if_neg hc] at h
        by_cases hs : r.finish_reason = "stop"
        · rw [if_pos hs] at h
          simp only [Except.ok.injEq, Prod.mk.injEq] at h
          rw [← h.1]
          exact dictShape_success env sid r.content (iter + 1)
        · rw [if_neg hs] at h
          exact ih _ _ _ _ h

/-- Claim C10: the two result shapes of `run_agent` have different key
sets — a success dict has an `answer` key and no `error` key, a failure
dict an `error` key and no `answer` key. -/
theorem claim10 (llm : Nat → Except String ModelReply) (env : ExtEnv)
    (q uid : String) (sid : Option String) (mi : Nat) :
    resShape (run_agent llm env q uid sid mi) := by
  show resShape ((run_agent_full llm env q uid sid mi).map Prod.fst)
  cases h : run_agent_full llm env q uid sid mi with
  | error e => simp [resShape, Except.map]
  | ok p =>
    simp only [Except.map]
    show dictShape p.1
    exact agentLoop_shape llm env (sid.getD env.uuid8) mi 0
      [Message.system sysPrompt, Message.user q] p.1 p.2 (by rw [← h]; rfl)

theorem hasCallId_lt (msgs : List Message) (i : Nat) (cid : String) :
    assistantHasCallId (msgs.getD i mDefault) cid → i < msgs.length := by
  intro h
  by_contra hge
  push_neg at hge
  rw [List.getD_eq_default _ _ hge] at h
  simp [assistantHasCallId, mDefault] at h

theorem toolRefOk_nil : toolRefOk [] := by
  intro j cid nm ct hj
  rw [List.getD_eq_default _ _ (by simp)] at hj
  simp [mDefault] at hj

theorem toolRefOk_init (q : String) :
    toolRefOk [Message.system sysPrompt, Message.user q] := by
  intro j cid nm ct hj
  exfalso
  match j with
  | 0 => simp [List.getD] at hj
  | 1 => simp [List.getD] at hj
  | n + 2 =>
    rw [List.getD_eq_default _ _ (by simp)] at hj
    simp [mDefault] at hj

theorem toolRefOk_append_assistant (msgs : List Message) (c : Option String)
    (t : Option (List ToolCall)) :
    toolRefOk msgs → toolRefOk (msgs ++ [Message.assistant c t]) := by
  intro h j cid nm ct hj
  by_cases hlt : j < msgs.length
  · rw [List.getD_append _ _ _ _ hlt] at hj
    obtain ⟨i, hij, ha⟩ := h j cid nm ct hj
    have hi : i < msgs.length := hasCallId_lt msgs i cid ha
    exact ⟨i, hij, by rw [List.getD_append _ _ _ _ hi]; exact ha⟩
  · push_neg at hlt
    rw [List.getD_append_right _ _ _ _ hlt] at hj
    exfalso
    rcases Nat.lt_or_ge (j - msgs.length) 1 with h1 | h1
    · have h0 : j - msgs.length = 0 := by omega
      rw [h0] at hj
      simp [List.getD] at hj
    · rw [List.getD_eq_default _ _ (by simpa using h1)] at hj
      simp [mDefault] at hj

theorem toolRefOk_append_toolBlock (env : ExtEnv) (msgs : List Message)
    (c : Option String) (tcs : List ToolCall) :
    toolRefOk msgs →
    toolRefOk ((msgs ++ [Message.assistant c (some tcs)]) ++ toolMsgs env tcs) := by
  intro h
  have hL : toolRefOk (msgs ++ [Message.assistant c (some tcs)]) :=
    toolRefOk_append_assistant msgs c (some tcs) h
  intro j cid nm ct hj
  by_cases hlt : j < (msgs ++ [Message.assistant c (some tcs)]).length
  · rw [List.getD_append _ _ _ _ hlt] at hj
    obtain ⟨i, hij, ha⟩ := hL j cid nm ct hj
    have hi : i < (msgs ++ [Message.assistant c (some tcs)]).length :=
      hasCallId_lt _ i cid ha
    exact ⟨i, hij, by rw [List.getD_append _ _ _ _ hi]; exact ha⟩
  · push_neg at hlt
    rw [List.getD_append_right _ _ _ _ hlt] at hj
    by_cases hptc : j - (msgs ++ [Message.assistant c (some tcs)]).length < tcs.length
    · have hlen : j - (msgs ++ [Message.assistant c (some tcs)]).length <
          (toolMsgs env tcs).length := by simpa [toolMsgs] using hptc
      rw [List.getD_eq_getElem _ _ hlen] at hj
      have hmap : (toolMsgs env tcs).get ⟨j - (msgs ++ [Message.assistant c (some tcs)]).length, hlen⟩ =
          Message.tool (tcs.get ⟨j - (msgs ++ [Message.assistant c (some tcs)]).length, hptc⟩).id
            (tcs.get ⟨j - (msgs ++ [Message.assistant c (some tcs)]).length, hptc⟩).name
            (dumpDict (execute_tool (TOOL_FUNCTIONS env)
              (tcs.get ⟨j - (msgs ++ [Message.assistant c (some tcs)]).length, hptc⟩).name
              (tcs.get ⟨j - (msgs ++ [Message.assistant c (some tcs)]).length, hptc⟩).arguments)) := by
        simp [toolMsgs]
      rw [List.get_eq_getElem] at hmap
      rw [hmap] at hj
      injection hj with h1 h2 h3
      refine ⟨msgs.length, ?_, ?_⟩
      · have : (msgs ++ [Message.assistant c (some tcs)]).length = msgs.length + 1 := by simp
        omega
      · have hmlt : msgs.length < (msgs ++ [Message.assistant c (some tcs)]).length := by simp
        rw [List.getD_append _ _ _ _ hmlt,
          List.getD_append_right _ _ _ _ (le_refl msgs.length)]
        simp only [Nat.sub_self, List.getD_cons_zero]
        show cid ∈ tcs.map ToolCall.id
        rw [← h1]
        exact List.mem_map_of_mem ToolCall.id (List.get_mem tcs _ hptc)
    · push_neg at hptc
      exfalso
      rw [List.getD_eq_default _ _ (by simpa [toolMsgs] using hptc)] at hj
      simp [mDefault] at hj

theorem agentLoop_toolRef (llm : Nat → Except String ModelReply) (env : ExtEnv) (sid : String) :
    ∀ (fuel iter : Nat) (msgs : List Message), toolRefOk msgs →
      ∀ (d : Dict) (m2 : List Message),
        agentLoop llm env sid fuel iter msgs = .ok (d, m2) → toolRefOk m2 := by
  intro fuel
  induction fuel with
  | zero =>
    intro iter msgs hok d m2 h
    simp only [agentLoop, Except.ok.injEq, Prod.mk.injEq] at h
    rw [← h.2]
    exact hok
  | succ f ih =>
    intro iter msgs hok d m2 h
    cases hllm : llm iter with
    | error e => simp [agentLoop, hllm] at h
    | ok r =>
      simp only [agentLoop, hllm] at h
      by_cases hc : r.finish_reason = "tool_calls" ∧ truthyCalls r.tool_calls = true
      · rw [if_pos hc] at h
        cases hrtc : r.tool_calls with
        | none => rw [hrtc] at hc; simp [truthyCalls] at hc
        | some tcs =>
          rw [hrtc] at h
          simp only [Option.getD_some] at h
          exact ih _ _ (toolRefOk_append_toolBlock env msgs r.content tcs hok) d m2 h
      · rw [if_neg hc] at h
        by_cases hs : r.finish_reason = "stop"
        · rw [if_pos hs] at h
          simp only [Except.ok.injEq, Prod.mk.injEq] at h
          rw [← h.2]
          exact toolRefOk_append_assistant msgs r.content r.tool_calls hok
        · rw [if_neg hs] at h
          exact ih _ _ (toolRefOk_append_assistant msgs r.content r.tool_calls hok) d m2 h

/-- Claim C3: for a batch of requested calls the loop appends exactly one
tool-role message per call, in request order, each tagged with the id of its
call; and in every conversation produced by a completed run, every tool
message references a call id emitted by an earlier assistant message. -/
theorem claim3 :
    (∀ (env : ExtEnv) (tcs : List ToolCall),
      (toolMsgs env tcs).map roleOf = List.replicate tcs.length "tool" ∧
      (toolMsgs env tcs).map callIdOf = tcs.map ToolCall.id) ∧
    (∀ (llm : Nat → Except String ModelReply) (env : ExtEnv) (q uid : String)
      (sid : Option String) (mi : Nat),
      toolRefOk (msgsOf (run_agent_full llm env q uid sid mi))) := by
  constructor
  · intro env tcs
    constructor
    · induction tcs with
      | nil => rfl
      | cons tc rest ih => simpa [toolMsgs, roleOf, List.replicate] using ih
    · induction tcs with
      | nil => rfl
      | cons tc rest ih => simp only [toolMsgs, List.map_cons, callIdOf, List.map_map] at ih ⊢; rw [ih]
  · intro llm env q uid sid mi
    cases h : run_agent_full llm env q uid sid mi with
    | error e => simp [msgsOf]; exact toolRefOk_nil
    | ok p =>
      show toolRefOk p.2
      exact agentLoop_toolRef llm env (sid.getD env.uuid8) mi 0
        [Message.system sysPrompt, Message.user q] (toolRefOk_init q) p.1 p.2
        (by rw [← h]; rfl)

theorem evalE_intArith : ∀ e : PExpr, intArith e = true →
    ∃ n : Int, evalE e = .ok (PyVal.int n) := by
  intro e
  induction e with
  | num n => intro _; exact ⟨n, rfl⟩
  | fnum q => intro h; simp [intArith] at h
  | strLit t => intro h; simp [intArith] at h
  | neg a ih =>
    intro h
    obtain ⟨n, hn⟩ := ih (by simpa [intArith] using h)
    exact ⟨-n, by simp [evalE, hn, pyNeg, bind, Except.bind]⟩
  | pos a ih =>
    intro h
    obtain ⟨n, hn⟩ := ih (by simpa [intArith] using h)
    exact ⟨n, by simp [evalE, hn, pyPos, bind, Except.bind]⟩
  | add a b iha ihb =>
    intro h
    simp only [intArith, Bool.and_eq_true] at h
    obtain ⟨n1, h1⟩ := iha h.1
    obtain ⟨n2, h2⟩ := ihb h.2
    exact ⟨n1 + n2, by simp [evalE, h1, h2, pyAdd, bind, Except.bind]⟩
  | sub a b iha ihb =>
    intro h
    simp only [intArith, Bool.and_eq_true] at h
    obtain ⟨n1, h1⟩ := iha h.1
    obtain ⟨n2, h2⟩ := ihb h.2
    exact ⟨n1 - n2, by simp [evalE, h1, h2, pySub, bind, Except.bind]⟩
  | mul a b iha ihb =>
    intro h
    simp only [intArith, Bool.and_eq_true] at h
    obtain ⟨n1, h1⟩ := iha h.1
    obtain ⟨n2, h2⟩ := ihb h.2
    exact ⟨n1 * n2, by simp [evalE, h1, h2, pyMul, bind, Except.bind]⟩
  | div a b iha ihb => intro h; simp [intArith] at h

/-- Claim C4: for every registry, tool name bound in it and argument bag, if
the dispatched tool function raises, `execute_tool` does not propagate the
exception but returns a failure dict whose error field carries the
exception text. -/
theorem claim4 (registry : List (String × (Dict → Except String Dict)))
    (tool_name : String) (tool_arguments : Dict)
    (f : Dict → Except String Dict) (e : String)
    (hf : lookupKey registry tool_name = some f)
    (hraise : f tool_arguments = .error e) :
    execute_tool registry tool_name tool_arguments =
      [("success", Val.bool false),
       ("error", Val.str ("Tool execution failed: " ++ e))] := by
  simp [execute_tool, hf, hraise]

theorem claim4_witness :
    execute_tool (TOOL_FUNCTIONS env0) "get_random_fact" [("category", Val.int 5)] =
      [("success", Val.bool false),
       ("error", Val.str "Tool execution failed: object has no attribute lower")] :=
  claim4 (TOOL_FUNCTIONS env0) "get_random_fact" [("category", Val.int 5)]
    (get_random_fact_kw env0) "object has no attribute lower" rfl rfl

/-- Claim C5: for every tool name not bound in the registry and every
argument bag, `execute_tool` returns — does not raise — a failure dict whose
error field contains that tool name; and the agent loop continues past a
round that dispatched an unknown tool, as the concrete two-round run
shows. -/
theorem claim5 (registry : List (String × (Dict → Except String Dict)))
    (tool_name : String) (tool_arguments : Dict)
    (hnone : lookupKey registry tool_name = none) :
    execute_tool registry tool_name tool_arguments =
      [("success", Val.bool false),
       ("error", Val.str ("Unknown tool: " ++ tool_name))] ∧
    okDict (run_agent llmUnknown env0 "q" "u" (some "s") 5) =
      successDict env0 "s" (some "recovered") 2 := by
  constructor
  · simp [execute_tool, hnone]
  · decide

theorem claim5_witness :
    (execute_tool (TOOL_FUNCTIONS env0) "nonexistent_tool" [] =
      [("success", Val.bool false),
       ("error", Val.str "Unknown tool: nonexistent_tool")]) ∧
    okDict (run_agent llmUnknown env0 "q" "u" (some "s") 5) =
      successDict env0 "s" (some "recovered") 2 :=
  claim5 (TOOL_FUNCTIONS env0) "nonexistent_tool" [] rfl

/-- Claim C7, counterexample: `calculate` is not restricted to numeric
results — on the string-literal expression `"hi"` it returns a success
result carrying a non-numeric (string) value, because `eval` under empty
builtins still evaluates arbitrary literal expressions. -/
theorem claim7_counterexample :
    calculate "\"hi\"" =
      [("success", Val.bool true), ("expression", Val.str "\"hi\""),
       ("result", Val.str "hi")] ∧
    isNumericV (Val.str "hi") = false := by
  decide

/-- Claim C7, amended: `calculate` never raises and returns one of exactly
two shapes — a success dict carrying the value of the evaluated expression
in `result`, or a failure dict carrying an error message in `error`; for
every input string that reads as a pure integer-arithmetic expression
(decimal integer literals, unary sign, `+`, `-`, `*`, parentheses) the
outcome is a success carrying exactly the integer value of the expression,
in particular a numeric value; but the evaluator is a general expression
evaluator rather than an arithmetic-only one, so a success result can also
carry a non-numeric value, e.g. for a string-literal expression. -/
theorem claim7_amended :
    (∀ s : String, calcShape (calculate s)) ∧
    (∀ (s : String) (e : PExpr) (v : PyVal),
      readExpr s = some e → intArith e = true → evalE e = .ok v →
      calculate s = [("success", Val.bool true), ("expression", Val.str s),
        ("result", pyToVal v)] ∧ isNumericV (pyToVal v) = true) := by
  constructor
  · intro s
    cases hre : readExpr s with
    | none =>
      exact Or.inr (by simp [calculate, hre, getVal, hasKey, lookupKey])
    | some e =>
      cases hev : evalE e with
      | ok v => exact Or.inl (by simp [calculate, hre, hev, getVal, hasKey, lookupKey])
      | error m => exact Or.inr (by simp [calculate, hre, hev, getVal, hasKey, lookupKey])
  · intro s e v hread hint heval
    obtain ⟨n, hn⟩ := evalE_intArith e hint
    rw [heval] at hn
    injection hn with hn
    subst hn
    exact ⟨by simp [calculate, hread, heval], rfl⟩

theorem claim7_witness :
    calcShape (calculate "2*)") ∧
    (calculate "2*3" = [("success", Val.bool true), ("expression", Val.str "2*3"),
      ("result", Val.int 6)] ∧ isNumericV (Val.int 6) = true) :=
  ⟨claim7_amended.1 "2*)",
   claim7_amended.2 "2*3" (PExpr.mul (PExpr.num 2) (PExpr.num 3)) (PyVal.int 6) rfl rfl rfl⟩

/-- Claim C8: `calculate "25 * 4"` returns success with numeric result 100,
and `calculate "1/0"` returns a failure result whose error field is the
division-by-zero diagnostic, raising nothing; a run whose first round
requests `calculate("1/0")` continues and terminates normally. -/
theorem claim8 :
    calculate "25 * 4" = [("success", Val.bool true), ("expression", Val.str "25 * 4"),
      ("result", Val.int 100)] ∧
    calculate "1/0" = [("success", Val.bool false), ("expression", Val.str "1/0"),
      ("error", Val.str "division by zero")] ∧
    okDict (run_agent llmCalc env0 "q" "u" (some "s") 5) =
      successDict env0 "s" (some "ok") 2 := by
  refine ⟨by decide, by decide, by decide⟩

theorem lookupKey_mem {α : Type} : ∀ (l : List (String × α)) (k : String) (v : α),
    lookupKey l k = some v → ∃ k2, (k2, v) ∈ l := by
  intro l
  induction l with
  | nil => intro k v h; exact Option.noConfusion h
  | cons p rest ih =>
    intro k v h
    simp only [lookupKey] at h
    split_ifs at h with hk
    · injection h with h2
      exact ⟨p.1, by rw [← h2]; simp⟩
    · obtain ⟨k2, hm⟩ := ih k v h
      exact ⟨k2, List.mem_cons_of_mem p hm⟩

theorem facts_lists_ne_nil (k : String) (l : List String)
    (h : lookupKey facts k = some l) : l ≠ [] := by
  obtain ⟨k2, hm⟩ := lookupKey_mem facts k l h
  have hall : ∀ p ∈ facts, p.2 ≠ ([] : List String) := by decide
  exact hall (k2, l) hm

theorem getD_mod_mem (l : List String) (p : Nat) (h : l ≠ []) :
    l.getD (p % l.length) "" ∈ l := by
  have hlen : 0 < l.length := List.length_pos.mpr h
  have hlt : p % l.length < l.length := Nat.mod_lt p hlen
  rw [List.getD_eq_getElem _ _ hlt]
  exact List.getElem_mem hlt

/-- Claim C9: for every category string, `get_random_fact` returns a
success dict whose fact is a member of the fixed list keyed by the
lower-cased category, and every category not naming one of the four fixed
lists silently falls back to `general`: the category field is `general` and
the fact comes from the general list. -/
theorem claim9 (category : String) (pick : Nat) :
    getVal (get_random_fact category pick) "success" = some (Val.bool true) ∧
    (∃ f, getVal (get_random_fact category pick) "fact" = some (Val.str f) ∧
      (∀ l, lookupKey facts (pyLower category) = some l →
        getVal (get_random_fact category pick) "category" =
          some (Val.str (pyLower category)) ∧ f ∈ l) ∧
      (lookupKey facts (pyLower category) = none →
        getVal (get_random_fact category pick) "category" = some (Val.str "general") ∧
        f ∈ generalFacts)) := by
  cases hlk : lookupKey facts (pyLower category) with
  | some l =>
    have hd : get_random_fact category pick =
        [("success", Val.bool true), ("category", Val.str (pyLower category)),
         ("fact", Val.str (choiceAt l pick))] := by
      simp [get_random_fact, hlk]
    rw [hd]
    refine ⟨rfl, choiceAt l pick, rfl, ?_, ?_⟩
    · intro l2 hl2
      injection hl2 with hl2
      subst hl2
      exact ⟨rfl, getD_mod_mem l pick (facts_lists_ne_nil (pyLower category) l hlk)⟩
    · intro hnone
      cases hnone
  | none =>
    have hd : get_random_fact category pick =
        [("success", Val.bool true), ("category", Val.str "general"),
         ("fact", Val.str (choiceAt generalFacts pick))] := by
      simp [get_random_fact, hlk]
      rfl
    rw [hd]
    refine ⟨rfl, choiceAt generalFacts pick, rfl, ?_, ?_⟩
    · intro l2 hl2
      cases hl2
    · intro _
      exact ⟨rfl, getD_mod_mem generalFacts pick (by simp [generalFacts])⟩

theorem claim9_witness :
    getVal (get_random_fact "SCIENCE" 3) "success" = some (Val.bool true) ∧
    getVal (get_random_fact "SCIENCE" 3) "category" = some (Val.str (pyLower "SCIENCE")) ∧
    getVal (get_random_fact "bogus" 2) "category" = some (Val.str "general") := by
  obtain ⟨h1, f, hf, hsome, _⟩ := claim9 "SCIENCE" 3
  obtain ⟨_, f2, hf2, _, hnone⟩ := claim9 "bogus" 2
  exact ⟨h1, (hsome scienceFacts rfl).1, (hnone rfl).1⟩

theorem claim1_witness :
    run_agent_full llmStop env0 "q" "u" none 1 =
      .ok (successDict env0 "abcd1234" (some "42") 1,
           [Message.system sysPrompt, Message.user "q",
            Message.assistant (some "42") none]) :=
  (claim1_amended llmStop env0 "q" "u" none 1 0 replyStop (by decide)
    (fun i h => absurd h (Nat.not_lt_zero i)) rfl rfl).2 rfl

theorem claim2_witness :
    okDict (run_agent llmTools env0 "q" "u" (some "sid") 3) = failureDict env0 "sid" 3 := by
  obtain ⟨msgs, h⟩ := claim2 llmTools env0 "q" "u" (some "sid") 3 (by decide)
    (fun i _ => ⟨replyTools, rfl, rfl, rfl⟩)
  show okDict ((run_agent_full llmTools env0 "q" "u" (some "sid") 3).map Prod.fst) = _
  rw [h]
  rfl

theorem claim3_witness :
    ((toolMsgs env0 tcPair).map roleOf = List.replicate 2 "tool" ∧
     (toolMsgs env0 tcPair).map callIdOf = ["call_1", "call_2"]) ∧
    toolRefOk (msgsOf (run_agent_full llmBatch env0 "q" "u" none 3)) :=
  ⟨⟨(claim3.1 env0 tcPair).1, (claim3.1 env0 tcPair).2⟩,
   claim3.2 llmBatch env0 "q" "u" none 3⟩

theorem claim6_witness :
    run_agent llmErr env0 "q" "u" none 1 = .error "APIConnectionError" :=
  claim6 llmErr env0 "q" "u" none 1 0 "APIConnectionError"
    (fun i h => absurd h (Nat.not_lt_zero i)) (by decide) rfl

theorem claim10_witness :
    resShape (run_agent llmLen env0 "w" "u" none 2) :=
  claim10 llmLen env0 "w" "u" none 2
